import Mathlib

/-!
Verification development for the GrumpyManager task/OKR chat bot.

The Python sources under src/ are shallowly embedded here:
pure functions become Lean functions, the spreadsheet store becomes an
explicit value threaded through the operations, Python floats become
rationals, and fallible parsing becomes Option results.  Each definition
is annotated with the source function it embeds.
-/

namespace GrumpyManager

/-! Basic string helpers.

Python strings are modelled through their character lists.  The helpers
below model the exact Python builtins used by the sources, restricted to
ASCII where the Python builtin is Unicode aware (all the data handled by
the bot is ASCII).
-/

/-- Characters treated as whitespace by Python str.strip() and by the
regex class backslash-s (ASCII fragment). -/
def isPySpace (c : Char) : Bool :=
  c == ' ' || c == '\t' || c == '\n' || c == '\x0d' || c == '\x0b' || c == '\x0c'

/-- Models Python str.strip() on a character list. -/
def pyStripChars (cs : List Char) : List Char :=
  ((cs.dropWhile isPySpace).reverse.dropWhile isPySpace).reverse

/-- Models Python str.strip(). -/
def pyStrip (s : String) : String :=
  ⟨pyStripChars s.toList⟩

/-- Models Python str.lower() (ASCII fragment). -/
def pyLowerChar (c : Char) : Char :=
  if 'A' ≤ c && c ≤ 'Z' then Char.ofNat (c.toNat + 32) else c

/-- Models Python str.lower() on strings. -/
def pyLower (s : String) : String :=
  ⟨s.toList.map pyLowerChar⟩

/-- Models Python s.startswith(pre) through the character lists. -/
def pyStartsWith (s pre : String) : Bool :=
  pre.toList.isPrefixOf s.toList

/-- Models Python str.replace(pat, '', 1): remove the first occurrence of
a (non-empty) pattern. -/
def replaceFirst (pat : List Char) : List Char → List Char
  | [] => []
  | c :: rest =>
    if pat.isPrefixOf (c :: rest) then (c :: rest).drop pat.length
    else c :: replaceFirst pat rest

/-- Lexicographic comparison of character lists by code point; models
Python string comparison (used when sorting date strings). -/
def charListLt : List Char → List Char → Bool
  | [], [] => false
  | [], _ :: _ => true
  | _ :: _, [] => false
  | a :: as, b :: bs =>
    if a < b then true
    else if b < a then false
    else charListLt as bs

/-- String comparison via charListLt; models Python string less-than. -/
def strLt (a b : String) : Bool :=
  charListLt a.toList b.toList

/-! Stable sorting.

Python list.sort is a stable sort; it is modelled by a stable insertion
sort.  An element is inserted after every earlier element y with
lt y x = true, hence before every element whose key is not smaller,
which preserves the original order of elements with equal keys exactly
as Python does (also with reverse=True, which Python implements while
keeping equal elements in their original order).
-/

/-- Inserts x after every leading y with lt y x (stable insertion). -/
def insertSorted (lt : α → α → Bool) (x : α) : List α → List α
  | [] => [x]
  | y :: ys => if lt y x then y :: insertSorted lt x ys else x :: y :: ys

/-- Stable insertion sort; models Python list.sort with a key function
encoded in lt. -/
def stableSort (lt : α → α → Bool) : List α → List α
  | [] => []
  | x :: xs => insertSorted lt x (stableSort lt xs)

theorem mem_insertSorted (lt : α → α → Bool) (x : α) (l : List α) (a : α) :
    a ∈ insertSorted lt x l ↔ a = x ∨ a ∈ l := by
  induction l with
  | nil => simp [insertSorted]
  | cons y ys ih =>
    by_cases h : lt y x = true
    · simp only [insertSorted, if_pos h, List.mem_cons, ih]
      tauto
    · simp only [insertSorted, if_neg h, List.mem_cons]

theorem perm_insertSorted (lt : α → α → Bool) (x : α) (l : List α) :
    (insertSorted lt x l).Perm (x :: l) := by
  induction l with
  | nil => simp [insertSorted]
  | cons y ys ih =>
    by_cases h : lt y x = true
    · simp only [insertSorted, if_pos h]
      exact ((ih.cons y).trans (List.Perm.swap x y ys))
    · simp [insertSorted, if_neg h]

theorem perm_stableSort (lt : α → α → Bool) (l : List α) :
    (stableSort lt l).Perm l := by
  induction l with
  | nil => simp [stableSort]
  | cons x xs ih =>
    exact (perm_insertSorted lt x (stableSort lt xs)).trans (ih.cons x)

theorem pairwise_insertSorted (key : α → Nat) {lt : α → α → Bool}
    (hlt : ∀ a b, lt a b = decide (key a < key b)) (x : α) (l : List α)
    (hl : l.Pairwise (fun a b => key a ≤ key b)) :
    (insertSorted lt x l).Pairwise (fun a b => key a ≤ key b) := by
  induction l with
  | nil => simp [insertSorted]
  | cons y ys ih =>
    rcases List.pairwise_cons.mp hl with ⟨hy, hys⟩
    by_cases h : lt y x = true
    · have hky : key y < key x := by
        have := hlt y x
        rw [h] at this
        exact of_decide_eq_true this.symm
      simp only [insertSorted, if_pos h]
      refine List.pairwise_cons.mpr ⟨?_, ih hys⟩
      intro a ha
      rcases (mem_insertSorted lt x ys a).mp ha with rfl | ha
      · exact Nat.le_of_lt hky
      · exact hy a ha
    · have hkx : key x ≤ key y := by
        have hd := hlt y x
        by_contra hc
        push_neg at hc
        exact h (hd.trans (decide_eq_true hc))
      simp only [insertSorted, if_neg h]
      refine List.pairwise_cons.mpr ⟨?_, hl⟩
      intro a ha
      rcases List.mem_cons.mp ha with rfl | ha
      · exact hkx
      · exact le_trans hkx (hy a ha)

theorem pairwise_stableSort (key : α → Nat) {lt : α → α → Bool}
    (hlt : ∀ a b, lt a b = decide (key a < key b)) (l : List α) :
    (stableSort lt l).Pairwise (fun a b => key a ≤ key b) := by
  induction l with
  | nil => simp [stableSort]
  | cons x xs ih => exact pairwise_insertSorted key hlt x (stableSort lt xs) ih

theorem filter_insertSorted_eq (key : α → Nat) {lt : α → α → Bool} [DecidableEq α]
    (hlt : ∀ a b, lt a b = decide (key a < key b)) (x : α) (l : List α)
    (k : Nat) (hx : key x = k) :
    (insertSorted lt x l).filter (fun a => key a == k)
      = x :: l.filter (fun a => key a == k) := by
  induction l with
  | nil => simp [insertSorted, List.filter, hx]
  | cons y ys ih =>
    by_cases h : lt y x = true
    · have hky : key y < key x := by
        have := hlt y x
        rw [h] at this
        exact of_decide_eq_true this.symm
      have hyk : (key y == k) = false := by
        simp only [beq_eq_false_iff_ne, ne_eq]
        omega
      simp only [insertSorted, if_pos h, List.filter, hyk, ih]
    · simp [insertSorted, if_neg h, List.filter, hx]

theorem filter_insertSorted_ne (key : α → Nat) {lt : α → α → Bool} [DecidableEq α]
    (x : α) (l : List α)
    (k : Nat) (hx : key x ≠ k) :
    (insertSorted lt x l).filter (fun a => key a == k)
      = l.filter (fun a => key a == k) := by
  induction l with
  | nil =>
    have hxk : (key x == k) = false := by simp [hx]
    simp [insertSorted, List.filter, hxk]
  | cons y ys ih =>
    by_cases h : lt y x = true
    · by_cases hy : key y = k
      · simp only [insertSorted, if_pos h, List.filter, hy, beq_self_eq_true, ih]
      · have hyk : (key y == k) = false := by simp [hy]
        simp only [insertSorted, if_pos h, List.filter, hyk, ih]
    · have hxk : (key x == k) = false := by simp [hx]
      simp only [insertSorted, if_neg h, List.filter, hxk]

theorem filter_stableSort (key : α → Nat) {lt : α → α → Bool} [DecidableEq α]
    (hlt : ∀ a b, lt a b = decide (key a < key b)) (l : List α) (k : Nat) :
    (stableSort lt l).filter (fun a => key a == k)
      = l.filter (fun a => key a == k) := by
  induction l with
  | nil => simp [stableSort]
  | cons x xs ih =>
    by_cases hx : key x = k
    · rw [stableSort, filter_insertSorted_eq key hlt x _ k hx, ih]
      simp [List.filter, hx]
    · rw [stableSort, filter_insertSorted_ne key x _ k hx, ih]
      have hxk : (key x == k) = false := by simp [hx]
      simp [List.filter, hxk]

/-! Command parsing.

Embeds TaskManager.parse_task_command (src/task_manager.py, lines 29-77).
The three regular expressions of the source are embedded as dedicated
matching functions with the semantics of the Python re module on
single-line input (the source handles one-line chat commands; the
newline-specific behaviour of the dot and dollar metacharacters is not
modelled).  Loops that rescan a shrinking suffix carry a fuel argument
that starts at the length of the input, which the recursion never
exhausts since each step consumes at least one character.
-/

/-- Word characters of the regex class backslash-w (ASCII fragment),
plus underscore as in the source pattern. -/
def isWordChar (c : Char) : Bool :=
  c.isAlphanum || c == '_'

/-- Takes exactly k characters satisfying p, returning them and the rest. -/
def takeExact (p : Char → Bool) : Nat → List Char → Option (List Char × List Char)
  | 0, cs => some ([], cs)
  | _ + 1, [] => none
  | k + 1, c :: cs =>
    if p c then (takeExact p k cs).map (fun r => (c :: r.1, r.2))
    else none

/-- Matches the tail of the due-date pattern after the literal "-d":
one or more whitespace characters then a YYYY-MM-DD digit group.
Returns the captured date characters and the unconsumed suffix. -/
def matchDueTail (rest : List Char) : Option (List Char × List Char) :=
  let n := (rest.takeWhile isPySpace).length
  if n = 0 then none
  else
    match takeExact Char.isDigit 4 (rest.drop n) with
    | none => none
    | some (y, r1) =>
      match r1 with
      | '-' :: r2 =>
        match takeExact Char.isDigit 2 r2 with
        | none => none
        | some (m, r3) =>
          match r3 with
          | '-' :: r4 =>
            match takeExact Char.isDigit 2 r4 with
            | none => none
            | some (d, r5) => some (y ++ '-' :: m ++ '-' :: d, r5)
          | _ => none
      | _ => none

/-- Matches the tail of the assignee pattern after the literal "-a":
one or more whitespace characters then a maximal non-empty run of word
characters.  Returns the capture and the unconsumed suffix. -/
def matchAssignTail (rest : List Char) : Option (List Char × List Char) :=
  let n := (rest.takeWhile isPySpace).length
  if n = 0 then none
  else
    let r := rest.drop n
    let w := r.takeWhile isWordChar
    if w.length = 0 then none else some (w, r.drop w.length)

/-- Models re.search for a pattern of the shape dash, marker character,
then a tail matcher: returns the first capture scanning left to right. -/
def searchPat (mark : Char) (tm : List Char → Option (List Char × List Char)) :
    List Char → Option (List Char)
  | [] => none
  | c :: cs =>
    match c, cs with
    | '-', d :: rest =>
      if d = mark then
        match tm rest with
        | some (cap, _) => some cap
        | none => searchPat mark tm cs
      else searchPat mark tm cs
    | _, _ => searchPat mark tm cs

/-- Fuel-driven worker for subPat. -/
def subPatGo (mark : Char) (tm : List Char → Option (List Char × List Char)) :
    Nat → List Char → List Char
  | 0, cs => cs
  | _ + 1, [] => []
  | fuel + 1, c :: cs =>
    match c, cs with
    | '-', d :: rest =>
      if d = mark then
        match tm rest with
        | some (_, r) => subPatGo mark tm fuel r
        | none => c :: subPatGo mark tm fuel cs
      else c :: subPatGo mark tm fuel cs
    | _, _ => c :: subPatGo mark tm fuel cs

/-- Models re.sub with an empty replacement: removes all non-overlapping
matches of the pattern, scanning left to right. -/
def subPat (mark : Char) (tm : List Char → Option (List Char × List Char))
    (cs : List Char) : List Char :=
  subPatGo mark tm cs.length cs

/-- Matches the optional category tail of the priority regex: one or more
whitespace characters, the literal "-c", one or more whitespace
characters, then a non-empty greedy capture extending to the end. -/
def matchCatTail (cs : List Char) : Option (List Char) :=
  let n := (cs.takeWhile isPySpace).length
  if n = 0 then none
  else
    match cs.drop n with
    | '-' :: 'c' :: r =>
      let m := (r.takeWhile isPySpace).length
      if m = 0 then none
      else
        let cat := r.drop m
        if cat.length = 0 then none
        else if cat.all (fun c => !(c == '\n')) then some cat else none
    | _ => none

/-- Lazy description loop of the priority regex: the description grows one
character at a time, and before each step the category tail is tried at
the current split point; at the end of input the optional group is
dropped.  The accumulator always holds at least one character. -/
def descLoop : Nat → List Char → List Char → Option (List Char × Option (List Char))
  | _, acc, [] => some (acc, none)
  | 0, _, _ :: _ => none
  | fuel + 1, acc, c :: cs =>
    match matchCatTail (c :: cs) with
    | some cat => some (acc, some cat)
    | none => if c == '\n' then none else descLoop fuel (acc ++ [c]) cs

/-- Structured result of TaskManager.parse_task_command. -/
structure ParsedTask where
  priority : String
  description : String
  category : String
  due_date : Option String
  assignee : Option String
deriving DecidableEq

/-- Embeds TaskManager.parse_task_command (src/task_manager.py, lines
29-77): strip the command marker, extract and remove the due date and the
assignee, then match the priority / lazy description / optional category
pattern; any failure yields none as in the source. -/
def parse_task_command (command_text : String) : Option ParsedTask :=
  let text0 := pyStripChars (replaceFirst "/task".toList command_text.toList)
  let due := searchPat 'd' matchDueTail text0
  let text1 := if due.isSome then pyStripChars (subPat 'd' matchDueTail text0) else text0
  let asg := searchPat 'a' matchAssignTail text1
  let text2 := if asg.isSome then pyStripChars (subPat 'a' matchAssignTail text1) else text1
  match text2 with
  | 'P' :: p :: rest =>
    if p == '1' || p == '2' || p == '3' then
      let n := (rest.takeWhile isPySpace).length
      if n = 0 then none
      else
        match rest.drop n with
        | [] => none
        | c0 :: r0 =>
          if c0 == '\n' then none
          else
            match descLoop r0.length [c0] r0 with
            | none => none
            | some (desc, catOpt) =>
              some ⟨⟨['P', p]⟩, ⟨pyStripChars desc⟩,
                (catOpt.map fun l => (⟨l⟩ : String)).getD "General",
                due.map fun l => (⟨l⟩ : String),
                asg.map fun l => (⟨l⟩ : String)⟩
    else none
  | _ => none

/-! Date parsing for the list-by-due-date view.

Embeds datetime.strptime(s, '%Y-%m-%d') as used by
TaskManager.get_due_tasks_message (src/task_manager.py, lines 198-293).
A parsed date is encoded as the natural number y * 10000 + m * 100 + d,
whose usual order coincides with the order of the datetime values, and
datetime.max is encoded as a number larger than every parsed date.
-/

/-- Numeric value of a digit list. -/
def natOfDigits (cs : List Char) : Nat :=
  cs.foldl (fun n c => 10 * n + (c.toNat - 48)) 0

/-- Splits a character list at every dash, like str.split('-') with all
parts kept. -/
def splitDash : List Char → List (List Char)
  | [] => [[]]
  | '-' :: rest => [] :: splitDash rest
  | c :: rest =>
    match splitDash rest with
    | [] => [[c]]
    | p :: ps => (c :: p) :: ps

/-- Month part of the strptime pattern: one or two digits, value 1..12,
consuming the whole part (the dash separators of the format cut the
string into the three parts). -/
def monthVal (cs : List Char) : Option Nat :=
  if cs.all Char.isDigit then
    let v := natOfDigits cs
    if (cs.length = 2 && decide (1 ≤ v) && decide (v ≤ 12))
        || (cs.length = 1 && decide (1 ≤ v)) then some v else none
  else none

/-- Day part of the strptime pattern: one or two digits, value 1..31. -/
def dayVal (cs : List Char) : Option Nat :=
  if cs.all Char.isDigit then
    let v := natOfDigits cs
    if (cs.length = 2 && decide (1 ≤ v) && decide (v ≤ 31))
        || (cs.length = 1 && decide (1 ≤ v) && decide (v ≤ 9)) then some v else none
  else none

/-- Gregorian leap-year test, as in datetime. -/
def isLeapYear (y : Nat) : Bool :=
  y % 4 == 0 && (y % 100 != 0 || y % 400 == 0)

/-- Number of days of a month, as validated by the datetime constructor. -/
def daysInMonth (y m : Nat) : Nat :=
  if m = 2 then (if isLeapYear y then 29 else 28)
  else if m = 4 || m = 6 || m = 9 || m = 11 then 30
  else 31

/-- Embeds datetime.strptime(s, '%Y-%m-%d'): a four-digit year (at least
0001), a one- or two-digit month and day, validated against the calendar;
none models the ValueError raised on any other input. -/
def strptimeYmd (s : String) : Option Nat :=
  match splitDash s.toList with
  | [ys, ms, ds] =>
    if ys.length = 4 && ys.all Char.isDigit then
      let y := natOfDigits ys
      if y = 0 then none
      else
        match monthVal ms, dayVal ds with
        | some m, some d =>
          if d ≤ daysInMonth y m then some (y * 10000 + m * 100 + d) else none
        | _, _ => none
    else none
  | _ => none

/-! Task rows and the list-by-due-date view. -/

/-- A task row as produced by SheetsManager.get_all_open_tasks: the
defaulted field-keyed record of one open task. -/
structure TaskRec where
  Task_ID : String
  Assigned_To_User : String
  Priority : String
  Task_Description : String
  Category : String
  Due_Date : String
deriving DecidableEq

/-- Encodes datetime.max: strictly above the key of every parsed date. -/
def MAX_DATE_KEY : Nat := 100000000

/-- Sort key of a task in the due-date view: the parsed due date, or the
datetime.max stand-in when parsing fails (src/task_manager.py, lines
224-231). -/
def dueKey (t : TaskRec) : Nat :=
  match strptimeYmd t.Due_Date with
  | some k => k
  | none => MAX_DATE_KEY

/-- Comparison used when sorting the due-date view. -/
def dueLt (a b : TaskRec) : Bool :=
  decide (dueKey a < dueKey b)

/-- Embeds the task list presented by TaskManager.get_due_tasks_message
(src/task_manager.py, lines 198-293): the open tasks with a non-empty
Due_Date field, stably sorted ascending by parsed due date; the message
and the keyboard enumerate exactly this list in this order. -/
def get_due_tasks_list (tasks : List TaskRec) : List TaskRec :=
  stableSort dueLt (tasks.filter (fun t => !(t.Due_Date == "")))

/-! The task spreadsheet.

Embeds the Task_Log worksheet accessed through gspread in
src/sheets_manager.py: a header row followed by data rows of cells.
Cells are addressed one-based as in gspread, and writing past the end of
a row grows the row with empty cells, as the backend grid does.
-/

/-- A worksheet: the header row and the data rows. -/
structure TaskSheet where
  header : List String
  rows : List (List String)
deriving DecidableEq

/-- Header row written by SheetsManager for the Task_Log worksheet
(src/sheets_manager.py, lines 57-60). -/
def taskHeaders : List String :=
  ["Task_ID", "Task_Description", "Assigned_To_User", "Priority",
   "Category", "Date_Created", "Status", "Date_Completed", "Due_Date"]

/-- Field access on a record produced by get_all_records: the cell under
the named header column, empty when the row is shorter than the header
(as gspread pads short rows).  A sheet whose header lacks the column
would make the Python subscript raise KeyError; the claims only concern
sheets with the standard header, where the column is present. -/
def recordGet (header row : List String) (name : String) : String :=
  match header.findIdx? (fun h => h == name) with
  | some i => row.getD i ""
  | none => ""

/-- Writes a cell at a zero-based index, growing the list with empty
cells when the index is past the end. -/
def setCell : List String → Nat → String → List String
  | [], 0, v => [v]
  | [], n + 1, v => "" :: setCell [] n v
  | _ :: xs, 0, v => v :: xs
  | x :: xs, n + 1, v => x :: setCell xs n v

/-- Embeds worksheet.update_cell(r, c, v) with one-based coordinates;
row 1 is the header row. -/
def update_cell (sheet : TaskSheet) (r c : Nat) (v : String) : TaskSheet :=
  if r = 1 then ⟨setCell sheet.header (c - 1) v, sheet.rows⟩
  else ⟨sheet.header, sheet.rows.set (r - 2) (setCell (sheet.rows.getD (r - 2) []) (c - 1) v)⟩

/-- Index of the first list element satisfying p; embeds the
enumerate-and-break loop of the source. -/
def firstIdx? (p : α → Bool) : List α → Option Nat
  | [] => none
  | x :: xs => if p x then some 0 else (firstIdx? p xs).map (· + 1)

/-- Embeds SheetsManager.mark_task_as_done (src/sheets_manager.py, lines
250-308): find the first row whose Task_ID equals task_id, write Done
into column 7 and the completion timestamp (the now argument) into
column 8, then, only when a completion link is given, ensure a
Completion_Link header column exists and write the link there; an
unknown id returns false and leaves the sheet untouched. -/
def mark_task_as_done (now : String) (task_id : String)
    (completion_link : Option String) (sheet : TaskSheet) : Bool × TaskSheet :=
  match firstIdx? (fun row => recordGet sheet.header row "Task_ID" == task_id) sheet.rows with
  | none => (false, sheet)
  | some i =>
    let task_row := i + 2
    let s1 := update_cell sheet task_row 7 "Done"
    let s2 := update_cell s1 task_row 8 now
    match completion_link with
    | none => (true, s2)
    | some link =>
      let headers := s2.header
      let s3 :=
        if headers.contains "Completion_Link" then s2
        else update_cell s2 1 (headers.length + 1) "Completion_Link"
      let col :=
        match firstIdx? (fun h => h == "Completion_Link") headers with
        | some j => j + 1
        | none => headers.length + 1
      (true, update_cell s3 task_row col link)

theorem firstIdx?_eq_none {p : α → Bool} {l : List α}
    (h : ∀ a ∈ l, p a = false) : firstIdx? p l = none := by
  induction l with
  | nil => rfl
  | cons x xs ih =>
    have hx := h x (List.mem_cons_self x xs)
    simp only [firstIdx?, hx, Bool.false_eq_true, if_false]
    rw [ih fun a ha => h a (List.mem_cons_of_mem x ha)]
    rfl

theorem firstIdx?_lt {p : α → Bool} {l : List α} {i : Nat}
    (h : firstIdx? p l = some i) : i < l.length := by
  induction l generalizing i with
  | nil => simp [firstIdx?] at h
  | cons x xs ih =>
    simp only [firstIdx?] at h
    by_cases hx : p x = true
    · rw [if_pos hx] at h
      cases h
      simp
    · rw [if_neg hx] at h
      cases hfi : firstIdx? p xs with
      | none => rw [hfi] at h; simp at h
      | some j =>
        rw [hfi] at h
        simp only [Option.map_some'] at h
        cases h
        have := ih hfi
        simp only [List.length_cons]
        omega

theorem setCell_getD_self (l : List String) (i : Nat) (v : String) :
    (setCell l i v).getD i "" = v := by
  induction l generalizing i with
  | nil =>
    induction i with
    | zero => rfl
    | succ n ihn => simpa [setCell] using ihn
  | cons x xs ih =>
    cases i with
    | zero => rfl
    | succ n => simpa [setCell] using ih n

theorem setCell_getD_ne (l : List String) (i j : Nat) (v : String)
    (h : j ≠ i) : (setCell l i v).getD j "" = l.getD j "" := by
  induction l generalizing i j with
  | nil =>
    induction i generalizing j with
    | zero =>
      cases j with
      | zero => exact absurd rfl h
      | succ m => simp [setCell]
    | succ n ihn =>
      cases j with
      | zero => simp [setCell]
      | succ m => simpa [setCell] using ihn m (by omega)
  | cons x xs ih =>
    cases i with
    | zero =>
      cases j with
      | zero => exact absurd rfl h
      | succ m => simp [setCell]
    | succ n =>
      cases j with
      | zero => simp [setCell]
      | succ m => simpa [setCell] using ih n m (by omega)

theorem set_getD_self {α : Type _} (l : List α) (i : Nat) (v d : α)
    (h : i < l.length) : (l.set i v).getD i d = v := by
  induction l generalizing i with
  | nil => simp at h
  | cons x xs ih =>
    cases i with
    | zero => rfl
    | succ n => simpa using ih n (by simpa using h)

theorem set_getD_ne {α : Type _} (l : List α) (i j : Nat) (v d : α)
    (h : j ≠ i) : (l.set i v).getD j d = l.getD j d := by
  induction l generalizing i j with
  | nil => simp
  | cons x xs ih =>
    cases i with
    | zero =>
      cases j with
      | zero => exact absurd rfl h
      | succ m => simp
    | succ n =>
      cases j with
      | zero => simp
      | succ m => simpa using ih n m (by omega)

/-! The OKR registry.

Embeds src/okr_manager.py.  Numeric spreadsheet fields are carried as
the result of Python float() on the stored string: some q for a parsed
value, none when float() would raise ValueError (Python floats are
modelled by rationals; the values handled by the bot stay well inside
the exactly-representable range).  Date fields are carried as the result
of datetime.strptime as a day number (an integer, so that differences of
dates in days are plain subtractions): none models a ValueError or a
missing column (KeyError).
-/

/-- An OKR row of the OKR_Log worksheet, fields already taken through
float() and strptime() as described above. -/
structure Okr where
  OKR_ID : String
  Goal_Name : String
  Target_Value : Option ℚ
  Start_Value : Option ℚ
  Period_Start_Date : Option Int
  Period_End_Date : Option Int
deriving DecidableEq

/-- A row of the Daily_Progress_Log worksheet.  The Date cell is kept as
the stored string, because the source sorts these rows by string
comparison; Updated_Value is the float() result of the stored value. -/
structure ProgressRow where
  Date : String
  User_Who_Updated : String
  OKR_Name : String
  Updated_Value : Option ℚ
deriving DecidableEq

/-- Activity filter of OKRManager.sync_okrs: both dates parse and the
current date lies between them inclusively; a row whose dates are
missing or unparsable is skipped (src/okr_manager.py, lines 51-61). -/
def okrIsActive (today : Int) (okr : Okr) : Bool :=
  match okr.Period_Start_Date, okr.Period_End_Date with
  | some s, some e => decide (s ≤ today) && decide (today ≤ e)
  | _, _ => false

/-- Embeds OKRManager.sync_okrs (src/okr_manager.py, lines 23-64): the
returned value of the Python function (the constant True) together with
the new active_okrs list built by the filtering loop. -/
def sync_okrs (today : Int) (all_okrs : List Okr) : Bool × List Okr :=
  (true, all_okrs.foldl (fun acc okr => if okrIsActive today okr then acc ++ [okr] else acc) [])

/-- Embeds OKRManager.get_okr_by_id (src/okr_manager.py, lines 169-182)
over the current active_okrs list. -/
def get_okr_by_id (active : List Okr) (okr_id : String) : Option Okr :=
  active.find? (fun o => o.OKR_ID == okr_id)

/-- Embeds SheetsManager.get_okr_progress (src/sheets_manager.py, lines
368-387): the progress rows of one goal, in stored order. -/
def get_okr_progress (log : List ProgressRow) (okr_name : String) : List ProgressRow :=
  log.filter (fun e => e.OKR_Name == okr_name)

/-- Embeds SheetsManager.add_okr_progress (src/sheets_manager.py, lines
340-366): append one progress row dated with the current date string. -/
def add_okr_progress (todayS : String) (username okr_name : String)
    (value : Option ℚ) (log : List ProgressRow) : List ProgressRow :=
  log ++ [⟨todayS, username, okr_name, value⟩]

/-- Descending-by-date comparison used on progress rows
(src/okr_manager.py, line 219, sort with reverse=True on string dates). -/
def progDescLt (a b : ProgressRow) : Bool :=
  strLt b.Date a.Date

/-- Previous-value lookup of calculate_progress_feedback
(src/okr_manager.py, lines 214-225): the Updated_Value of the most
recent progress row of the goal (ties kept in stored order), or the
start value when the goal has no progress rows; none models the
ValueError of float() on an unparsable stored value. -/
def prevValueFor (log : List ProgressRow) (goal : String) (start : ℚ) : Option ℚ :=
  match stableSort progDescLt (get_okr_progress log goal) with
  | [] => some start
  | e :: _ => e.Updated_Value

/-- Pace information of the feedback message, carrying the numbers the
source interpolates into the text. -/
inductive Pace where
  | behind (required_daily deficit new_daily_target : ℚ) (days_remaining : Int)
  | ahead (surplus : ℚ)
  | reachedTarget (target : ℚ)
  | endedShortfall (current target : ℚ)
deriving DecidableEq

/-- Outcome of a progress update, one constructor per distinct message
shape of the source. -/
inductive Feedback where
  | notFound
  | invalidNumber
  | starting (v : ℚ)
  | progress (daily_change : ℚ) (pace : Pace)
  | fallback
deriving DecidableEq

/-- Embeds OKRManager.calculate_progress_feedback (src/okr_manager.py,
lines 184-267).  The fallback constructor models the except branch that
catches ValueError, KeyError and ZeroDivisionError. -/
def calculate_progress_feedback (today : Int) (log : List ProgressRow)
    (okr : Okr) (new_value : ℚ) : Feedback :=
  match okr.Target_Value, okr.Start_Value, okr.Period_Start_Date, okr.Period_End_Date with
  | some target, some start, some sd, some ed =>
    let total_days : Int := ed - sd
    let days_passed : Int := today - sd
    let days_remaining : Int := ed - today
    if days_passed ≤ 0 then .starting new_value
    else
      match prevValueFor log okr.Goal_Name start with
      | none => .fallback
      | some prev =>
        if total_days = 0 then .fallback
        else
          let daily_change := new_value - prev
          let required_daily := (target - start) / (total_days : ℚ)
          let expected := start + required_daily * (days_passed : ℚ)
          if 0 < days_remaining then
            let deficit := expected - new_value
            if 0 < deficit then
              .progress daily_change
                (.behind required_daily deficit
                  ((target - new_value) / (days_remaining : ℚ)) days_remaining)
            else .progress daily_change (.ahead |deficit|)
          else
            if target ≤ new_value then .progress daily_change (.reachedTarget target)
            else .progress daily_change (.endedShortfall new_value target)
  | _, _, _, _ => .fallback

/-- Embeds OKRManager.update_okr_progress (src/okr_manager.py, lines
269-300).  The new_value argument is the float() result of the raw user
string (none models the ValueError of a non-numeric value).  Note the
source appends the progress row before computing the feedback, so the
feedback sees the log that already contains the new sample. -/
def update_okr_progress (todayS : String) (todayI : Int) (username okr_id : String)
    (new_value : Option ℚ) (active : List Okr) (log : List ProgressRow) :
    (Bool × Feedback) × List ProgressRow :=
  match get_okr_by_id active okr_id with
  | none => ((false, .notFound), log)
  | some okr =>
    match new_value with
    | none => ((false, .invalidNumber), log)
    | some v =>
      let log1 := add_okr_progress todayS username okr.Goal_Name (some v) log
      ((true, calculate_progress_feedback todayI log1 okr v), log1)

theorem foldl_append_filter (p : α → Bool) (l acc : List α) :
    l.foldl (fun a x => if p x then a ++ [x] else a) acc = acc ++ l.filter p := by
  induction l generalizing acc with
  | nil => simp
  | cons x xs ih =>
    by_cases hx : p x = true
    · simp [List.foldl, hx, ih, List.filter]
    · simp [List.foldl, hx, ih, List.filter]

/-! The conversation router.

Embeds InternBot.message_handler (src/bot.py, lines 512-618).  The
per-user slots are passed in explicitly: user_data carries the
awaiting_completion_link flag and the completing_task_id key of the
telegram per-user context, conv_state carries this user's entry of the
conversation_state dictionary.  Replies are modelled by their kind (one
constructor per distinct reply of the source).  The source ends with a
send_message call whose text argument is the name message, which is
bound nowhere in the function, so every control path that reaches the
end of the function raises NameError; the raisedNameError flag records
that the handler terminated by raising it after having produced the
listed replies and state changes.
-/

/-- Telegram per-user context keys used by the completion-link flow. -/
structure UserData where
  awaiting_completion_link : Bool
  completing_task_id : Option String
deriving DecidableEq

/-- One user's entry of the conversation_state dictionary. -/
structure ConvState where
  waiting_for : String
  okr_id : Option String
deriving DecidableEq

/-- Replies of the handler, by kind. -/
inductive Reply where
  | needUsername
  | linkReprompt
  | taskCompleted (link : Option String)
  | taskFailed
  | okrStateError
  | okrFeedback (success : Bool) (f : Feedback)
deriving DecidableEq

/-- Result of one handler invocation: replies sent, the new per-user
state, the new stores, and whether the trailing NameError was raised. -/
structure HandlerOut where
  replies : List Reply
  user_data : UserData
  conv_state : Option ConvState
  sheet : TaskSheet
  progress_log : List ProgressRow
  raisedNameError : Bool
deriving DecidableEq

/-- Python falsiness of the okr_id slot value (None or empty string). -/
def optFalsy : Option String → Bool
  | none => true
  | some s => s == ""

/-- Tail of the handler after the completion-link branch declined to
return (src/bot.py, lines 581-618): the OKR-update branch, then the
trailing block that raises NameError. -/
def handlerTail (todayS : String) (todayI : Int) (user : String)
    (textFloat : Option ℚ) (ud : UserData) (cs : Option ConvState)
    (active : List Okr) (sheet : TaskSheet) (log : List ProgressRow) : HandlerOut :=
  match cs with
  | some w =>
    if w.waiting_for == "okr_update" then
      if optFalsy w.okr_id then ⟨[.okrStateError], ud, none, sheet, log, false⟩
      else
        match w.okr_id with
        | some oid =>
          let r := update_okr_progress todayS todayI user oid textFloat active log
          ⟨[.okrFeedback r.1.1 r.1.2], ud, none, sheet, r.2, true⟩
        | none => ⟨[.okrStateError], ud, none, sheet, log, false⟩
    else ⟨[], ud, cs, sheet, log, true⟩
  | none => ⟨[], ud, cs, sheet, log, true⟩

/-- Embeds InternBot.message_handler (src/bot.py, lines 512-618) for one
incoming free-text message.  The textFloat argument is the float()
result of the stripped message text, used only by the OKR-update branch;
the now argument is the completion timestamp written by
mark_task_as_done. -/
def message_handler (now todayS : String) (todayI : Int)
    (username : Option String) (text : String) (textFloat : Option ℚ)
    (ud : UserData) (cs : Option ConvState) (active : List Okr)
    (sheet : TaskSheet) (log : List ProgressRow) : HandlerOut :=
  match username with
  | none => ⟨[.needUsername], ud, cs, sheet, log, false⟩
  | some user =>
    if ud.awaiting_completion_link then
      match ud.completing_task_id with
      | some tid =>
        let link := pyStrip text
        if pyLower link != "none"
            && !(pyStartsWith link "http://" || pyStartsWith link "https://") then
          ⟨[.linkReprompt], ud, cs, sheet, log, false⟩
        else
          let linkOpt : Option String := if pyLower link == "none" then none else some link
          let r := mark_task_as_done now tid linkOpt sheet
          ⟨[if r.1 then Reply.taskCompleted linkOpt else Reply.taskFailed],
            ⟨false, none⟩, cs, r.2, log, false⟩
      | none => handlerTail todayS todayI user textFloat ud cs active sheet log
    else handlerTail todayS todayI user textFloat ud cs active sheet log

/-! Concrete example data used by counterexamples and witnesses. -/

/-- Example open task with a due date. -/
def exDatedTask : TaskRec :=
  ⟨"t1", "alice", "P1", "write report", "General", "2025-07-05"⟩

/-- Example open task with an empty Due_Date cell. -/
def exUndatedTask : TaskRec :=
  ⟨"t2", "bob", "P2", "review deck", "General", ""⟩

/-- Example Task_Log worksheet with one open task of id t1. -/
def exSheet : TaskSheet :=
  ⟨taskHeaders,
   [["t1", "write report", "alice", "P1", "General",
     "2025-07-01 10:00:00", "Open", "", "2025-07-05"]]⟩

/-- Example OKR active on day 5 (period days 0 to 10). -/
def exActiveOkrA : Okr := ⟨"o1", "Revenue", some 100, some 0, some 0, some 10⟩

/-- Second example OKR active on day 5 (period days 2 to 5). -/
def exActiveOkrB : Okr := ⟨"o2", "Users", some 50, some 5, some 2, some 5⟩

/-! Claim theorems. -/

/-- Claim C1, counterexample: the list-by-due-date view omits a task
whose Due_Date cell is empty instead of placing it last — the undated
example task is a stored open task but is absent from the presented
list. -/
theorem c1_undated_task_omitted :
    get_due_tasks_list [exDatedTask, exUndatedTask] = [exDatedTask]
      ∧ exUndatedTask ∈ [exDatedTask, exUndatedTask] := by
  decide

/-- Claim C1, amended: for every list of stored open tasks, the
list-by-due-date view presents exactly the tasks with a non-empty due
date (tasks lacking a due date are omitted), sorted ascending by parsed
due date with unparsable dates last, and for tasks with equal due dates
the original insertion order is preserved (the filtered sublist at each
due-date key is unchanged). -/
theorem c1_due_view_sorted_stable (tasks : List TaskRec) :
    (get_due_tasks_list tasks).Pairwise (fun a b => dueKey a ≤ dueKey b)
    ∧ (get_due_tasks_list tasks).Perm (tasks.filter (fun t => !(t.Due_Date == "")))
    ∧ ∀ k, (get_due_tasks_list tasks).filter (fun t => dueKey t == k)
        = (tasks.filter (fun t => !(t.Due_Date == ""))).filter (fun t => dueKey t == k) := by
  refine ⟨?_, ?_, ?_⟩
  · exact pairwise_stableSort dueKey (fun a b => rfl) _
  · exact perm_stableSort _ _
  · intro k
    exact filter_stableSort dueKey (fun a b => rfl) _ k

/-- Claim C2, counterexample: sync_okrs does not return the count of
active objectives — its returned value is the same for a store with no
active objective and for a store with two. -/
theorem c2_sync_returns_true_not_count :
    (sync_okrs 5 []).1 = (sync_okrs 5 [exActiveOkrA, exActiveOkrB]).1
      ∧ (sync_okrs 5 []).2.length = 0
      ∧ (sync_okrs 5 [exActiveOkrA, exActiveOkrB]).2.length = 2 := by
  decide

/-- Claim C2, amended: sync_okrs returns True (the count of active
objectives being the length of the retained list), and for every stored
objective list it retains exactly those objectives whose parsed date
range contains today inclusively; rows with unparsable or missing dates
are skipped without failing the sync. -/
theorem c2_sync_filters_active (today : Int) (all_okrs : List Okr) :
    (sync_okrs today all_okrs).1 = true
      ∧ (sync_okrs today all_okrs).2 = all_okrs.filter (okrIsActive today) := by
  refine ⟨rfl, ?_⟩
  simpa using foldl_append_filter (okrIsActive today) all_okrs []

/-- Claim C7: marking an unknown task id as done returns failure and
performs no store mutation, whatever the completion link. -/
theorem c7_mark_done_unknown_id (now task_id : String) (completion_link : Option String)
    (sheet : TaskSheet)
    (h : ∀ row ∈ sheet.rows, recordGet sheet.header row "Task_ID" ≠ task_id) :
    mark_task_as_done now task_id completion_link sheet = (false, sheet) := by
  unfold mark_task_as_done
  rw [firstIdx?_eq_none (fun row hr => by simpa using h row hr)]

/-- Witness for c7_mark_done_unknown_id: the example sheet has no row
with Task_ID zz, and marking zz as done fails and leaves it unchanged. -/
theorem c7_mark_done_unknown_id_witness :
    (∀ row ∈ exSheet.rows, recordGet exSheet.header row "Task_ID" ≠ "zz")
      ∧ mark_task_as_done "2025-07-02 18:00:00" "zz" none exSheet = (false, exSheet) :=
  ⟨by decide, c7_mark_done_unknown_id "2025-07-02 18:00:00" "zz" none exSheet (by decide)⟩

/-- Claim C8: a progress update on an active objective with a value that
float() cannot parse returns failure with a user-facing message and
appends nothing to the progress log. -/
theorem c8_nonnumeric_rejected (todayS : String) (todayI : Int) (username okr_id : String)
    (active : List Okr) (log : List ProgressRow) (okr : Okr)
    (h : get_okr_by_id active okr_id = some okr) :
    update_okr_progress todayS todayI username okr_id none active log
      = ((false, .invalidNumber), log) := by
  unfold update_okr_progress
  rw [h]

/-- Witness for c8_nonnumeric_rejected at a concrete active objective
and an empty progress log. -/
theorem c8_nonnumeric_rejected_witness :
    get_okr_by_id [exActiveOkrA] "o1" = some exActiveOkrA
      ∧ update_okr_progress "2025-07-05" 5 "alice" "o1" none [exActiveOkrA] []
          = ((false, .invalidNumber), []) :=
  ⟨rfl, c8_nonnumeric_rejected "2025-07-05" 5 "alice" "o1" [exActiveOkrA] [] exActiveOkrA rfl⟩

/-- Claim C9: parsing the example command extracts priority P1,
description Ship report, category Ops, due date 2025-07-05 and assignee
alice. -/
theorem c9_parse_task_example :
    parse_task_command "/task P1 Ship report -c Ops -d 2025-07-05 -a alice"
      = some ⟨"P1", "Ship report", "Ops", some "2025-07-05", some "alice"⟩ := by
  decide

/-- Claim C10: with the standard Task_Log header, marking an existing
task as done without a completion link touches only the Status cell
(column 7, set to Done) and the Date_Completed cell (column 8, set to
the completion timestamp) of the first row whose Task_ID matches; the
header row, every other row, and every other cell of that row are
unchanged, and no Completion_Link column is created. -/
theorem c10_mark_done_frame (now task_id : String) (sheet : TaskSheet) (i : Nat)
    (_hh : sheet.header = taskHeaders)
    (hi : firstIdx? (fun row => recordGet sheet.header row "Task_ID" == task_id)
        sheet.rows = some i) :
    (mark_task_as_done now task_id none sheet).1 = true
    ∧ (mark_task_as_done now task_id none sheet).2.header = sheet.header
    ∧ (mark_task_as_done now task_id none sheet).2.rows.length = sheet.rows.length
    ∧ (∀ j, j ≠ i → (mark_task_as_done now task_id none sheet).2.rows.getD j []
        = sheet.rows.getD j [])
    ∧ (∀ c, c ≠ 6 → c ≠ 7 →
        ((mark_task_as_done now task_id none sheet).2.rows.getD i []).getD c ""
          = (sheet.rows.getD i []).getD c "")
    ∧ ((mark_task_as_done now task_id none sheet).2.rows.getD i []).getD 6 "" = "Done"
    ∧ ((mark_task_as_done now task_id none sheet).2.rows.getD i []).getD 7 "" = now := by
  have hlen : i < sheet.rows.length := firstIdx?_lt hi
  have hres : mark_task_as_done now task_id none sheet
      = (true, ⟨sheet.header,
          sheet.rows.set i (setCell (setCell (sheet.rows.getD i []) 6 "Done") 7 now)⟩) := by
    unfold mark_task_as_done
    rw [hi]
    simp only [update_cell]
    rw [if_neg (by omega : ¬ i + 2 = 1), if_neg (by omega : ¬ i + 2 = 1)]
    simp only [Nat.add_sub_cancel]
    rw [set_getD_self _ _ _ _ hlen, List.set_set]
  rw [hres]
  refine ⟨rfl, rfl, by simp, ?_, ?_, ?_, ?_⟩
  · intro j hj
    exact set_getD_ne _ _ _ _ _ hj
  · intro c h6 h7
    rw [set_getD_self _ _ _ _ hlen, setCell_getD_ne _ _ _ _ h7, setCell_getD_ne _ _ _ _ h6]
  · rw [set_getD_self _ _ _ _ hlen, setCell_getD_ne _ _ _ _ (by omega), setCell_getD_self]
  · rw [set_getD_self _ _ _ _ hlen, setCell_getD_self]

/-- Witness for c10_mark_done_frame: the example sheet has its only row
(index 0) matching id t1, and marking it done writes Done into the
Status cell while keeping the description cell unchanged. -/
theorem c10_mark_done_frame_witness :
    (exSheet.header = taskHeaders
      ∧ firstIdx? (fun row => recordGet exSheet.header row "Task_ID" == "t1")
          exSheet.rows = some 0)
    ∧ ((mark_task_as_done "2025-07-02 18:00:00" "t1" none exSheet).2.rows.getD 0 []).getD 6 ""
        = "Done"
    ∧ ((mark_task_as_done "2025-07-02 18:00:00" "t1" none exSheet).2.rows.getD 0 []).getD 1 ""
        = (exSheet.rows.getD 0 []).getD 1 "" :=
  ⟨⟨rfl, by decide⟩,
   (c10_mark_done_frame "2025-07-02 18:00:00" "t1" exSheet 0 rfl (by decide)).2.2.2.2.2.1,
   (c10_mark_done_frame "2025-07-02 18:00:00" "t1" exSheet 0 rfl (by decide)).2.2.2.2.1
     1 (by omega) (by omega)⟩

/-- Example OKR used for the pacing formula: start 0, target 100, period
days 0 to 10. -/
def exPaceOkr : Okr := ⟨"o3", "Pace", some 100, some 0, some 0, some 10⟩

/-- Claim C5: for an objective with parsed numeric start and target,
elapsed days d greater than 0, remaining days r greater than 0, total
period days n greater than 0, and a previous value available, the pacing
feedback computes expected_value_today as start plus
(target minus start) over n times d; when the deficit
expected_value_today minus current is positive it reports the required
daily rate, the deficit, and the new daily target
(target minus current) over r. -/
theorem c5_behind_pace_formula (today : Int) (log : List ProgressRow) (okr : Okr)
    (target start prev current : ℚ) (sd ed : Int)
    (htv : okr.Target_Value = some target) (hsv : okr.Start_Value = some start)
    (hsd : okr.Period_Start_Date = some sd) (hed : okr.Period_End_Date = some ed)
    (hprev : prevValueFor log okr.Goal_Name start = some prev)
    (hd : 0 < today - sd) (hr : 0 < ed - today) (hn : 0 < ed - sd)
    (hdef : 0 < start + (target - start) / ((ed - sd : Int) : ℚ) * ((today - sd : Int) : ℚ)
        - current) :
    calculate_progress_feedback today log okr current
      = .progress (current - prev)
          (.behind ((target - start) / ((ed - sd : Int) : ℚ))
            (start + (target - start) / ((ed - sd : Int) : ℚ) * ((today - sd : Int) : ℚ)
              - current)
            ((target - current) / ((ed - today : Int) : ℚ)) (ed - today)) := by
  unfold calculate_progress_feedback
  rw [htv, hsv, hsd, hed]
  simp only [hprev]
  rw [if_neg (by omega : ¬ today - sd ≤ 0), if_neg (by omega : ¬ ed - sd = 0),
    if_pos hr, if_pos hdef]

/-- Witness for c5_behind_pace_formula at the numbers of the claim:
start 0, target 100, n 10, d 5, current 40 give required daily rate 10,
expected value 50, deficit 10 and new daily target 12. -/
theorem c5_behind_pace_formula_witness :
    calculate_progress_feedback 5 [] exPaceOkr 40
      = .progress 40 (.behind 10 10 12 5) := by
  have h := c5_behind_pace_formula 5 [] exPaceOkr 100 0 0 40 0 10
    rfl rfl rfl rfl rfl (by decide) (by decide) (by decide) (by norm_num)
  rw [h]
  norm_num

/-- Example OKR for the delta-from-previous evaluation: start 0, target
100, period days 0 to 10. -/
def exOkrG : Okr := ⟨"o1", "Growth", some 100, some 0, some 0, some 10⟩

/-- Progress log holding one pre-existing sample of value 10 dated the
day before the update. -/
def exPriorLog : List ProgressRow := [⟨"2025-07-01", "bob", "Growth", some 10⟩]

/-- Claim C3, evaluation at the failing input: updating the objective to
15 on day 2 (with one pre-existing sample of value 10) reports a
day-over-day delta of 0, not 15 minus 10 — the source appends the new
sample before computing the feedback, so the most-recent-sample lookup
compares the new value with itself. -/
theorem c3_delta_compares_new_value_with_itself :
    (update_okr_progress "2025-07-02" 2 "alice" "o1" (some 15) [exOkrG] exPriorLog).1.2
      = .progress 0 (.behind 10 5 (85 / 8 : ℚ) 8)
    ∧ (update_okr_progress "2025-07-02" 2 "alice" "o1" (some 15) [exOkrG] exPriorLog).1.2
      ≠ .progress (15 - 10 : ℚ) (.behind 10 5 (85 / 8 : ℚ) 8) := by
  have hkey : (update_okr_progress "2025-07-02" 2 "alice" "o1" (some 15)
      [exOkrG] exPriorLog).1.2
      = (if (0 : ℚ) < 0 + (100 - 0) / ((10 - 0 : Int) : ℚ) * ((2 - 0 : Int) : ℚ) - 15 then
          Feedback.progress (15 - 15)
            (.behind ((100 - 0) / ((10 - 0 : Int) : ℚ))
              (0 + (100 - 0) / ((10 - 0 : Int) : ℚ) * ((2 - 0 : Int) : ℚ) - 15)
              ((100 - 15) / ((10 - 2 : Int) : ℚ)) (10 - 2))
        else Feedback.progress (15 - 15)
            (.ahead |0 + (100 - 0) / ((10 - 0 : Int) : ℚ) * ((2 - 0 : Int) : ℚ) - 15|)) := rfl
  have hdef : (0 : ℚ) < 0 + (100 - 0) / ((10 - 0 : Int) : ℚ) * ((2 - 0 : Int) : ℚ) - 15 := by
    norm_num
  rw [hkey, if_pos hdef]
  constructor
  · norm_num
  · simp only [ne_eq, Feedback.progress.injEq, not_and]
    intro hv
    norm_num at hv

/-- Claim C4, evaluation at the failing input: a free-text message from
a user with no pending expectation sends no reply and changes no state,
but the handler terminates by raising the NameError of the trailing
send_message block instead of returning normally, so it is not an
exception-free no-op. -/
theorem c4_no_pending_raises_name_error :
    message_handler "2025-07-02 18:00:00" "2025-07-02" 2 (some "alice") "hello" none
        ⟨false, none⟩ none [] exSheet []
      = ⟨[], ⟨false, none⟩, none, exSheet, [], true⟩ := rfl

/-- Claim C6: for a user in the awaiting-completion-link state, a reply
that is not the case-insensitive token none and does not start with
http:// or https:// produces a re-prompt and leaves the state slot (both
the flag and the pending task id) intact and the stores untouched, while
a reply lowering to none clears the slot and marks the pending task done
with a null completion link; the slot is cleared only on acceptance. -/
theorem c6_completion_link_gate (now todayS : String) (todayI : Int) (user : String)
    (text1 text2 : String) (tf1 tf2 : Option ℚ) (tid : String) (cs : Option ConvState)
    (active : List Okr) (sheet : TaskSheet) (log : List ProgressRow) :
    ((pyLower (pyStrip text1) ≠ "none"
        → pyStartsWith (pyStrip text1) "http://" = false
        → pyStartsWith (pyStrip text1) "https://" = false
        → message_handler now todayS todayI (some user) text1 tf1
            ⟨true, some tid⟩ cs active sheet log
          = ⟨[.linkReprompt], ⟨true, some tid⟩, cs, sheet, log, false⟩)
    ∧ (pyLower (pyStrip text2) = "none"
        → message_handler now todayS todayI (some user) text2 tf2
            ⟨true, some tid⟩ cs active sheet log
          = ⟨[if (mark_task_as_done now tid none sheet).1 then Reply.taskCompleted none
                else Reply.taskFailed],
              ⟨false, none⟩, cs, (mark_task_as_done now tid none sheet).2, log, false⟩)) := by
  have hkey : ∀ (text : String) (tf : Option ℚ),
      message_handler now todayS todayI (some user) text tf
          ⟨true, some tid⟩ cs active sheet log
        = (if (pyLower (pyStrip text) != "none"
              && !(pyStartsWith (pyStrip text) "http://"
                  || pyStartsWith (pyStrip text) "https://")) = true then
            ⟨[.linkReprompt], ⟨true, some tid⟩, cs, sheet, log, false⟩
          else
            ⟨[if (mark_task_as_done now tid
                  (if (pyLower (pyStrip text) == "none") = true then none
                   else some (pyStrip text)) sheet).1
                then Reply.taskCompleted
                  (if (pyLower (pyStrip text) == "none") = true then none
                   else some (pyStrip text))
                else Reply.taskFailed],
              ⟨false, none⟩, cs,
              (mark_task_as_done now tid
                (if (pyLower (pyStrip text) == "none") = true then none
                 else some (pyStrip text)) sheet).2,
              log, false⟩) := fun text tf => rfl
  constructor
  · intro h1 h2 h3
    rw [hkey text1 tf1, if_pos]
    rw [h2, h3]
    simp [bne_iff_ne, h1]
  · intro h
    rw [hkey text2 tf2, if_neg (by simp [h])]
    simp [h]

/-- Witness for c6_completion_link_gate: the reply ftp://x is re-prompted
with the slot intact, and the reply none clears the slot and marks the
pending task t1 of the example sheet done with a null link. -/
theorem c6_completion_link_gate_witness :
    (pyLower (pyStrip "ftp://x") ≠ "none"
      ∧ pyStartsWith (pyStrip "ftp://x") "http://" = false
      ∧ pyStartsWith (pyStrip "ftp://x") "https://" = false
      ∧ message_handler "t0" "2025-07-02" 2 (some "alice") "ftp://x" none
          ⟨true, some "t1"⟩ none [] exSheet []
        = ⟨[.linkReprompt], ⟨true, some "t1"⟩, none, exSheet, [], false⟩)
    ∧ (pyLower (pyStrip "none") = "none"
      ∧ message_handler "t0" "2025-07-02" 2 (some "alice") "none" none
          ⟨true, some "t1"⟩ none [] exSheet []
        = ⟨[Reply.taskCompleted none], ⟨false, none⟩, none,
            (mark_task_as_done "t0" "t1" none exSheet).2, [], false⟩) :=
  ⟨⟨by decide, by decide, by decide,
    (c6_completion_link_gate "t0" "2025-07-02" 2 "alice" "ftp://x" "none" none none
        "t1" none [] exSheet []).1 (by decide) (by decide) (by decide)⟩,
   ⟨by decide,
    ((c6_completion_link_gate "t0" "2025-07-02" 2 "alice" "ftp://x" "none" none none
        "t1" none [] exSheet []).2 (by decide)).trans (by decide)⟩⟩

end GrumpyManager
